import Mathlib

set_option maxRecDepth 100000
set_option maxHeartbeats 1000000

namespace DisListenerJs

/-! Shallow embedding of the dis-listener-js repository.

The repository consists of thin Node.js drivers (src/unnamed/part_000 =
dis-listener.js, src/dis-ws-proxy.js, src/simple-listener.js) around the
external open-dis-js library.  The driver control flow (length guard, PDU
type filter, version check, articulation loop, WebSocket broadcast) is
embedded directly from the source files.  The binary Entity State PDU
field extraction, the coordinate converter and the orientation converter
live in the open-dis-js dependency, which is not part of the repository;
those parts are modelled from the specification, as marked on each
definition. -/

/-- Bytes of a UDP datagram: each entry is a natural number in 0..255. -/
abbrev Bytes := List Nat

/-- Byte at offset `i` of a buffer (reads guarded by a length check in the
decoder, so the default value is never observed on the guarded paths). -/
def byteAt (bs : Bytes) (i : Nat) : Nat := bs.getD i 0

/-- Big-endian 16-bit unsigned integer at offset `i`. -/
def u16At (bs : Bytes) (i : Nat) : Nat := byteAt bs i * 256 + byteAt bs (i+1)

/-- Big-endian 32-bit unsigned integer at offset `i`. -/
def u32At (bs : Bytes) (i : Nat) : Nat :=
  ((byteAt bs i * 256 + byteAt bs (i+1)) * 256 + byteAt bs (i+2)) * 256 + byteAt bs (i+3)

/-- Bounds-checked read of a big-endian 16-bit integer, as performed by the
open-dis-js InputStream used for the nested Entity ID sub-decode. -/
def readU16 (bs : Bytes) (i : Nat) : Option Nat := do
  let hi ← bs[i]?
  let lo ← bs[i+1]?
  pure (hi * 256 + lo)

/-- Bounds-checked read of `n` raw bytes starting at offset `i`; fails when
the buffer holds fewer bytes than requested. -/
def readBytes (bs : Bytes) (i n : Nat) : Option Bytes :=
  if i + n ≤ bs.length then some ((bs.drop i).take n) else none

/-- Read `n` consecutive 16-byte articulation records starting at `off`;
fails as soon as a record extends past the end of the buffer (the
DataView reads of the library raise on out-of-bounds access). -/
def readArtRecords (bs : Bytes) (off : Nat) : Nat → Option (List Bytes)
  | 0 => some []
  | n+1 => do
    let r ← readBytes bs off 16
    let rest ← readArtRecords bs (off + 16) n
    pure (r :: rest)

deriving instance DecidableEq for Except

/-- Decode error taxonomy of the specification, section 7. -/
inductive DecodeError where
  | TooShort : DecodeError
  | TruncatedPdu : DecodeError
  | UnsupportedVersion : Nat → DecodeError
  | NotEntityState : DecodeError
  deriving DecidableEq

/-- Exceptions that can escape a JavaScript datagram handler in these
drivers: a decode failure raised by the PDU factory, or a ReferenceError
raised by evaluating an identifier that is not bound in module scope. -/
inductive JsError where
  | decodeFailure : DecodeError → JsError
  | referenceError : String → JsError
  deriving DecidableEq

/-- Composite entity identifier: site, application, entity (3 × u16). -/
structure EntityID where
  site : Nat
  application : Nat
  entity : Nat
  deriving DecidableEq

/-- Decoded articulation parameter: designator, change indicator, part
attached to, parameter type, and the raw 8 value bytes. -/
structure ArticulationParameter where
  parameterTypeDesignator : Nat
  changeIndicator : Nat
  partAttachedTo : Nat
  parameterType : Nat
  parameterValue : Bytes
  deriving DecidableEq

/-- Modelled from the spec: the open-dis-js ArticulationParameter binary
layout (section 4.6) — designator u8 at 0, change u8 at 1, attached-to u16
at 2, parameter type u32 at 4, then the raw 8 value bytes. -/
def decodeArtParam (r : Bytes) : ArticulationParameter :=
  ⟨byteAt r 0, byteAt r 1, u16At r 2, u32At r 4, (r.drop 8).take 8⟩

/-- Structured Entity State PDU, with the fields the drivers consume. The
entity location and orientation are kept as raw byte runs (3 × f64 and
3 × f32 respectively); the drivers only pass them on to converters. -/
structure Espdu where
  protocolVersion : Nat
  exerciseID : Nat
  pduType : Nat
  entityID : EntityID
  forceId : Nat
  numberOfArticulationParameters : Nat
  kind : Nat
  domain : Nat
  country : Nat
  entityLocation : Bytes
  entityOrientation : Bytes
  entityAppearance : Nat
  marking : Bytes
  articulationParameters : List ArticulationParameter
  deriving DecidableEq

/-- Modelled from the spec: the Entity State PDU field extraction done by
open-dis-js EntityStatePdu.initFromBinary (section 4.2 byte layout —
version at 0, type at 2, entity ID at 12, articulation count at 19,
entity type at 20, location at 48, orientation at 72, appearance at 84,
marking at 128, then `numberOfArticulationParameters` 16-byte records
from offset 144).  A buffer shorter than the declared content makes a
read run past the end, surfaced as `TruncatedPdu`. -/
def decodeEspduBody (bs : Bytes) : Except DecodeError Espdu :=
  if bs.length < 144 then .error .TruncatedPdu
  else
    match readArtRecords bs 144 (byteAt bs 19) with
    | none => .error .TruncatedPdu
    | some recs =>
      .ok ⟨byteAt bs 0, byteAt bs 1, byteAt bs 2,
           ⟨u16At bs 12, u16At bs 14, u16At bs 16⟩,
           byteAt bs 18, byteAt bs 19, byteAt bs 20, byteAt bs 21, u16At bs 22,
           (bs.drop 48).take 24, (bs.drop 72).take 12, u32At bs 84,
           (bs.drop 128).take 12, recs.map decodeArtParam⟩

/-- Modelled from the spec: the EntityStatePduCodec contract of section
4.2 — `TooShort` below 144 bytes, then `UnsupportedVersion` when the
version byte differs from 6, then `NotEntityState` when the PDU type
byte differs from 1 (Entity State), then the full field read which
surfaces `TruncatedPdu` when the declared articulation records run past
the end of the buffer. -/
def decode (bs : Bytes) : Except DecodeError Espdu :=
  if bs.length < 144 then .error .TooShort
  else if byteAt bs 0 ≠ 6 then .error (.UnsupportedVersion (byteAt bs 0))
  else if byteAt bs 2 ≠ 1 then .error .NotEntityState
  else decodeEspduBody bs

/-- Object returned by the PDU factory: an Entity State PDU, or a PDU of
another type (of which the drivers only inspect the type code). -/
inductive FactoryPdu where
  | entityState : Espdu → FactoryPdu
  | other : Nat → FactoryPdu
  deriving DecidableEq

/-- PDU type code exposed by a factory object. -/
def FactoryPdu.pduType : FactoryPdu → Nat
  | .entityState e => e.pduType
  | .other t => t

/-- Modelled from the spec: open-dis-js DIS6_PduFactory.createPdu switches
on the PDU type byte at offset 2 and runs the Entity State binary decode
for type 1; a read failure inside the decode escapes as an exception. -/
def createPdu (bs : Bytes) : Except JsError FactoryPdu :=
  if byteAt bs 2 = 1 then
    match decodeEspduBody bs with
    | .error e => .error (.decodeFailure e)
    | .ok e => .ok (.entityState e)
  else .ok (.other (byteAt bs 2))

/-- Two-character lowercase hexadecimal rendering of one byte, as computed
by the drivers' toHex helper via a two-zero pad and a slice of the last
two characters. -/
def jsByteToHex (x : Nat) : String :=
  let s := "00" ++ String.mk (Nat.toDigits 16 x)
  s.drop (s.length - 2)

/-- The drivers' toHex: per-byte two-digit hex, joined without separator
(dis-ws-proxy.js line 276, part_000 line 233). -/
def toHex (v : Bytes) : String := String.join (v.map jsByteToHex)

/-- Modelled from the spec: DIS6_EntityID.initFromBinary — site,
application and entity as consecutive big-endian u16 reads from the start
of the given buffer. -/
def initEntityIDFromBinary (v : Bytes) : Option EntityID := do
  let s ← readU16 v 0
  let a ← readU16 v 2
  let e ← readU16 v 4
  pure ⟨s, a, e⟩

/-- Per-parameter output of the articulation loop of a driver: the logged
type and designator, the hexadecimal rendering of the raw value bytes,
and the nested Entity ID when the driver chose to decode one. -/
structure ApOutput where
  parameterType : Nat
  parameterTypeDesignator : Nat
  hexValue : String
  nestedEntityID : Option EntityID
  deriving DecidableEq

/-- Articulation step of dis-ws-proxy.js (lines 240-259): the value is
always rendered in hex; the nested Entity ID is decoded exactly when
parameterType = 1 and parameterTypeDesignator = 0. -/
def wsProxyApStep (ap : ArticulationParameter) : ApOutput :=
  ⟨ap.parameterType, ap.parameterTypeDesignator, toHex ap.parameterValue,
   if ap.parameterType = 1 ∧ ap.parameterTypeDesignator = 0 then
     initEntityIDFromBinary ap.parameterValue
   else none⟩

/-- Articulation step of part_000 (lines 209-230): the value is always
rendered in hex; the nested Entity ID is decoded whenever
parameterType = 1, with no check of the designator. -/
def disListenerApStep (ap : ArticulationParameter) : ApOutput :=
  ⟨ap.parameterType, ap.parameterTypeDesignator, toHex ap.parameterValue,
   if ap.parameterType = 1 then initEntityIDFromBinary ap.parameterValue
   else none⟩

/-- Entity kind code for platforms (DIS enumeration used by open-dis-js). -/
def EntityKindPlatform : Nat := 1

/-- Domain code for land platforms. -/
def DomainLand : Nat := 1

/-- Domain code for air platforms. -/
def DomainAir : Nat := 2

/-- Domain code for surface platforms. -/
def DomainSurface : Nat := 3

/-- Domain code for subsurface platforms. -/
def DomainSubsurface : Nat := 4

/-- Modelled from the spec: the 2-bit damage sub-field of the platform
appearance word (bits 3 and 4), extracted by the open-dis-js appearance
classes. -/
def appearanceDamage (w : Nat) : Nat := w / 8 % 4

/-- Domain-tagged appearance value of the specification's data model
(section 3): each recognized domain carries a damage value and the raw
word, the Unknown case carries only the raw word. -/
inductive AppearanceFlags where
  | Surface : Nat → Nat → AppearanceFlags
  | Subsurface : Nat → Nat → AppearanceFlags
  | Land : Nat → Nat → AppearanceFlags
  | Air : Nat → Nat → AppearanceFlags
  | Unknown : Nat → AppearanceFlags
  deriving DecidableEq

/-- Appearance dispatch of simple-listener.js (lines 60-72): a surface
platform gets the surface layout, a subsurface platform the subsurface
layout, and every other kind/domain combination gets no decoded
appearance at all. -/
def simpleListenerAppearance (kind domain w : Nat) : Option AppearanceFlags :=
  if kind = EntityKindPlatform ∧ domain = DomainSurface then
    some (.Surface (appearanceDamage w) w)
  else if kind = EntityKindPlatform ∧ domain = DomainSubsurface then
    some (.Subsurface (appearanceDamage w) w)
  else none

/-- Appearance handling of part_000 (lines 196-201): the surface platform
layout is applied unconditionally, with no dispatch on the entity
domain. -/
def disListenerAppearance (w : Nat) : AppearanceFlags :=
  .Surface (appearanceDamage w) w

/-- Identifiers bound at module scope of dis-ws-proxy.js: the ten imported
bindings and the ten top-level constants and declarations of the file. -/
def wsProxyModuleBindings : List String :=
  ["dgram", "PduFactory", "DIS6_EntityStatePdu", "DIS6_SurfacePlatformAppearance",
   "DIS6_EntityID", "InputStream", "CoordinateConverter", "WebSocketServer",
   "isInSubnet", "packageJson", "args", "argsf", "argsp", "UDP_IP", "UDP_PORT",
   "WS_HOST", "WS_PORT", "VERBOSE", "DISWSProxy", "proxy"]

/-- Name resolution against the module scope of dis-ws-proxy.js; an
identifier that does not resolve raises a ReferenceError when evaluated. -/
def wsProxyResolves (name : String) : Bool := wsProxyModuleBindings.contains name

/-- Output of a completed per-PDU handler run: the damage value logged
from the appearance word and the per-parameter articulation outputs. -/
structure HandleOutput where
  damage : Option Nat
  apOutputs : List ApOutput
  deriving DecidableEq

/-- Handler DISWSProxy.handleDIS_ESPDU (dis-ws-proxy.js lines 206-274).
Lines 208-215 convert the position and log (total); line 218 evaluates
the identifier orientationConverter, which is not bound in module scope,
so the evaluation raises a ReferenceError there; line 221 would likewise
evaluate the unbound identifier heading. -/
def wsProxyHandleESPDU (espdu : Espdu) : Except JsError HandleOutput :=
  if wsProxyResolves "orientationConverter" then
    if wsProxyResolves "heading" then
      .ok ⟨some (appearanceDamage espdu.entityAppearance),
           espdu.articulationParameters.map wsProxyApStep⟩
    else .error (.referenceError "heading")
  else .error (.referenceError "orientationConverter")

/-- Handler DISListener.handleDIS_ESPDU (part_000 lines 177-231): converts
and logs position and orientation (total, `orc` is bound at line 23),
logs the damage of the unconditional surface appearance, then runs the
articulation loop; it completes normally on every input. -/
def disListenerHandleESPDU (espdu : Espdu) : Except JsError HandleOutput :=
  .ok ⟨some (appearanceDamage espdu.entityAppearance),
       espdu.articulationParameters.map disListenerApStep⟩

/-- Observable outcome of one datagram delivered to a driver: the version
value logged as unsupported (if any), the completed handler output (if
any), the raw messages broadcast to WebSocket clients, and the exception
that escaped the handler uncaught (if any).  An uncaught exception in a
Node.js datagram event handler is fatal to the process. -/
structure ParseOutcome where
  versionErrorLogged : Option Nat
  handled : Option HandleOutput
  broadcasts : List Bytes
  thrown : Option JsError
  deriving DecidableEq

/-- Outcome of a datagram that is silently ignored: nothing logged,
nothing handled, nothing broadcast, nothing thrown. -/
def cleanIgnore : ParseOutcome := ⟨none, none, [], none⟩

/-- DISWSProxy.parseDISMessage (dis-ws-proxy.js lines 171-200): datagrams
shorter than 144 bytes are ignored; the factory decodes the buffer with
no surrounding try/catch, so a decode failure escapes; a PDU whose type
is not 1 is ignored; a version other than 6 is logged and the method
returns; otherwise the handler runs and, only if it completes, the raw
datagram is broadcast to the WebSocket clients. -/
def wsProxyParseDISMessage (msg : Bytes) : ParseOutcome :=
  if 144 ≤ msg.length then
    match createPdu msg with
    | .error e => ⟨none, none, [], some e⟩
    | .ok pdu =>
      if pdu.pduType = 1 then
        match pdu with
        | .entityState espdu =>
          if espdu.protocolVersion ≠ 6 then ⟨some espdu.protocolVersion, none, [], none⟩
          else
            match wsProxyHandleESPDU espdu with
            | .error e => ⟨none, none, [], some e⟩
            | .ok h => ⟨none, some h, [msg], none⟩
        | .other _ => cleanIgnore
      else cleanIgnore
  else cleanIgnore

/-- DISListener.parseDISMessage (part_000 lines 150-171): the same control
flow as the proxy, without the WebSocket broadcast. -/
def disListenerParseDISMessage (msg : Bytes) : ParseOutcome :=
  if 144 ≤ msg.length then
    match createPdu msg with
    | .error e => ⟨none, none, [], some e⟩
    | .ok pdu =>
      if pdu.pduType = 1 then
        match pdu with
        | .entityState espdu =>
          if espdu.protocolVersion ≠ 6 then ⟨some espdu.protocolVersion, none, [], none⟩
          else
            match disListenerHandleESPDU espdu with
            | .error e => ⟨none, none, [], some e⟩
            | .ok h => ⟨none, some h, [], none⟩
        | .other _ => cleanIgnore
      else cleanIgnore
  else cleanIgnore

/-- Datagram event handler of the proxy socket (dis-ws-proxy.js lines
150-154): it logs the packet and calls parseDISMessage with no try/catch,
so any exception of the parse escapes the handler uncaught. -/
def wsProxyOnMessage (msg : Bytes) : ParseOutcome := wsProxyParseDISMessage msg

/-- Datagram event handler of the listener socket (part_000 lines
128-133): it calls parseDISMessage with no try/catch. -/
def disListenerOnMessage (msg : Bytes) : ParseOutcome := disListenerParseDISMessage msg

/-- DISWSProxy.broadcastToWSClients (dis-ws-proxy.js lines 123-132): when
the client set is non-empty, the message is sent to each client of the
current set; with no clients nothing happens.  Clients are identified by
natural numbers; the result lists each performed send. -/
def broadcastToWSClients (clients : List Nat) (msg : Bytes) : List (Nat × Bytes) :=
  if 0 < clients.length then clients.map (fun c => (c, msg)) else []

/-- Modelled from the spec: RelayHub subscription (section 4.7) — a new
subscriber is appended to the set the WebSocket server maintains. -/
def subscribeClient (clients : List Nat) (c : Nat) : List Nat := clients ++ [c]

/-- Modelled from the spec: RelayHub unsubscription (section 4.7) — a
disconnected subscriber is removed from the set before later publishes. -/
def unsubscribeClient (clients : List Nat) (c : Nat) : List Nat := clients.erase c

noncomputable section

/-- Four-quadrant arctangent with the convention of JavaScript Math.atan2:
the result lies in (-pi, pi], with atan2 0 0 = 0. -/
def atan2 (y x : ℝ) : ℝ :=
  if 0 < x then Real.arctan (y / x)
  else if x < 0 then
    if 0 ≤ y then Real.arctan (y / x) + Real.pi else Real.arctan (y / x) - Real.pi
  else if 0 < y then Real.pi / 2
  else if y < 0 then -(Real.pi / 2)
  else 0

/-- WGS-84 semi-major axis in meters. -/
def wgs84a : ℝ := 6378137

/-- WGS-84 semi-minor axis in meters. -/
def wgs84b : ℝ := 6356752.3142

/-- First eccentricity squared of the WGS-84 ellipsoid. -/
def wgsE2 : ℝ := (wgs84a^2 - wgs84b^2) / wgs84a^2

/-- Second eccentricity squared of the WGS-84 ellipsoid. -/
def wgsEp2 : ℝ := (wgs84a^2 - wgs84b^2) / wgs84b^2

/-- Distance from the polar axis of an ECEF point. -/
def ecefP (x y : ℝ) : ℝ := Real.sqrt (x^2 + y^2)

/-- Parametric (reduced) latitude of the Bowring closed form. -/
def ecefBeta (p z : ℝ) : ℝ := atan2 (wgs84a * z) (wgs84b * p)

/-- Geodetic latitude in radians by the Bowring closed form, for a point
off the polar axis. -/
def ecefLatRad (p z : ℝ) : ℝ :=
  atan2 (z + wgsEp2 * wgs84b * (Real.sin (ecefBeta p z))^3)
        (p - wgsE2 * wgs84a * (Real.cos (ecefBeta p z))^3)

/-- Height above the ellipsoid from the axis distance and the geodetic
latitude in radians, for a point off the polar axis. -/
def ecefAlt (p latRad : ℝ) : ℝ :=
  p / Real.cos latRad - wgs84a / Real.sqrt (1 - wgsE2 * (Real.sin latRad)^2)

/-- Modelled from the spec: CoordinateConverter.convertDisToLatLongInDegrees
lives in the external open-dis-js library; this follows section 4.3 — the
WGS-84 ellipsoid, the Bowring closed form, the polar-axis input x = y = 0
mapped to latitude plus or minus 90 degrees with no division by zero, and
longitude atan2 y x.  The result is (latitude, longitude, altitude) with
the angles in degrees and the altitude in meters. -/
def ecefToGeodetic (x y z : ℝ) : ℝ × ℝ × ℝ :=
  if ecefP x y = 0 then
    ((if 0 ≤ z then 90 else -90), 0, |z| - wgs84b)
  else
    (ecefLatRad (ecefP x y) z * (180 / Real.pi),
     atan2 y x * (180 / Real.pi),
     ecefAlt (ecefP x y) (ecefLatRad (ecefP x y) z))

/-- Plain 3 × 3 real matrix, rows then columns. -/
structure Mat3 where
  m11 : ℝ
  m12 : ℝ
  m13 : ℝ
  m21 : ℝ
  m22 : ℝ
  m23 : ℝ
  m31 : ℝ
  m32 : ℝ
  m33 : ℝ

/-- Matrix product of two 3 × 3 matrices. -/
def Mat3.mul (A B : Mat3) : Mat3 :=
  ⟨A.m11*B.m11 + A.m12*B.m21 + A.m13*B.m31,
   A.m11*B.m12 + A.m12*B.m22 + A.m13*B.m32,
   A.m11*B.m13 + A.m12*B.m23 + A.m13*B.m33,
   A.m21*B.m11 + A.m22*B.m21 + A.m23*B.m31,
   A.m21*B.m12 + A.m22*B.m22 + A.m23*B.m32,
   A.m21*B.m13 + A.m22*B.m23 + A.m23*B.m33,
   A.m31*B.m11 + A.m32*B.m21 + A.m33*B.m31,
   A.m31*B.m12 + A.m32*B.m22 + A.m33*B.m32,
   A.m31*B.m13 + A.m32*B.m23 + A.m33*B.m33⟩

/-- Transpose of a 3 × 3 matrix. -/
def Mat3.transpose (A : Mat3) : Mat3 :=
  ⟨A.m11, A.m21, A.m31, A.m12, A.m22, A.m32, A.m13, A.m23, A.m33⟩

/-- Body-from-ECEF rotation built from the DIS Euler angles psi, theta,
phi (radians): the yaw-pitch-roll composition Rx(phi) Ry(theta) Rz(psi). -/
def bodyFromEcef (psi theta phi : ℝ) : Mat3 :=
  let cps := Real.cos psi
  let sps := Real.sin psi
  let cth := Real.cos theta
  let sth := Real.sin theta
  let cph := Real.cos phi
  let sph := Real.sin phi
  ⟨cth*cps, cth*sps, -sth,
   sph*sth*cps - cph*sps, sph*sth*sps + cph*cps, sph*cth,
   cph*sth*cps + sph*sps, cph*sth*sps - sph*cps, cph*cth⟩

/-- North-East-Down-from-ECEF rotation at a geodetic latitude and
longitude given in radians. -/
def nedFromEcef (lat lon : ℝ) : Mat3 :=
  ⟨-(Real.sin lat) * Real.cos lon, -(Real.sin lat) * Real.sin lon, Real.cos lat,
   -(Real.sin lon), Real.cos lon, 0,
   -(Real.cos lat) * Real.cos lon, -(Real.cos lat) * Real.sin lon, -(Real.sin lat)⟩

/-- Modelled from the spec: the OrientationConverter of the external
open-dis-js library, called at part_000 line 189; section 4.4 — the body
Euler angles (radians) are composed with the local frame at the entity's
latitude and longitude (degrees, as produced by the coordinate
converter), and heading, pitch and roll are extracted from the
body-from-NED direction cosine matrix, with heading normalized from
(-180, 180] into [0, 360). -/
def calculateHeadingPitchRollFromPsiThetaPhiRadians
    (psi theta phi lat lon : ℝ) : ℝ × ℝ × ℝ :=
  let latRad := lat * (Real.pi / 180)
  let lonRad := lon * (Real.pi / 180)
  let M := (bodyFromEcef psi theta phi).mul (nedFromEcef latRad lonRad).transpose
  let headingDeg := atan2 M.m12 M.m11 * (180 / Real.pi)
  let pitchDeg := Real.arcsin (-(M.m13)) * (180 / Real.pi)
  let rollDeg := atan2 M.m23 M.m33 * (180 / Real.pi)
  ((if headingDeg < 0 then headingDeg + 360 else headingDeg), pitchDeg, rollDeg)

end

/-- Concrete 144-byte datagram with PDU type 2 (not Entity State). -/
def nonEspduBuf : Bytes := (List.replicate 144 0).set 2 2

/-- Concrete 144-byte version-6 Entity State datagram that declares one
articulation record but carries none. -/
def truncatedEspduBuf : Bytes := (((List.replicate 144 0).set 0 6).set 2 1).set 19 1

/-- Concrete complete 144-byte version-6 Entity State datagram with no
articulation records. -/
def validEspduBuf : Bytes := ((List.replicate 144 0).set 0 6).set 2 1

/-- Concrete 144-byte version-5 Entity State datagram. -/
def v5EspduBuf : Bytes := ((List.replicate 144 0).set 0 5).set 2 1

/-- Concrete 10-byte buffer whose version byte is 5. -/
def shortV5Buf : Bytes := [5, 0, 0, 0, 0, 0, 0, 0, 0, 0]

/-- Decoded articulation parameter with designator 1 and type 1, carrying
value bytes for site 1, application 2, entity 3. -/
def mismatchedAp : ArticulationParameter := ⟨1, 0, 0, 1, [0, 1, 0, 2, 0, 3, 0, 0]⟩

/-- Reading a run of articulation records fails when the last declared
record extends past the end of the buffer. -/
theorem readArtRecords_eq_none (bs : Bytes) :
    ∀ (n off : Nat), off ≤ bs.length → bs.length < off + 16 * n →
      readArtRecords bs off n = none := by
  intro n
  induction n with
  | zero => intro off h1 h2; omega
  | succ k ih =>
    intro off h1 h2
    unfold readArtRecords readBytes
    by_cases hb : off + 16 ≤ bs.length
    · rw [if_pos hb]
      have hrest := ih (off + 16) hb (by omega)
      simp [hrest]
    · rw [if_neg hb]
      rfl

/-- Reading a run of articulation records succeeds when the buffer holds
all the declared records. -/
theorem readArtRecords_isSome (bs : Bytes) :
    ∀ (n off : Nat), off + 16 * n ≤ bs.length →
      ∃ l, readArtRecords bs off n = some l := by
  intro n
  induction n with
  | zero => intro off _; exact ⟨[], rfl⟩
  | succ k ih =>
    intro off h
    obtain ⟨l, hl⟩ := ih (off + 16) (by omega)
    refine ⟨(bs.drop off).take 16 :: l, ?_⟩
    unfold readArtRecords readBytes
    rw [if_pos (by omega)]
    simp [hl]

/-- Body decode of an Entity State PDU whose declared articulation
records run past the end of the buffer. -/
theorem decodeEspduBody_truncated (bs : Bytes) (h : 144 ≤ bs.length)
    (htr : bs.length < 144 + 16 * byteAt bs 19) :
    decodeEspduBody bs = .error .TruncatedPdu := by
  unfold decodeEspduBody
  rw [if_neg (by omega), readArtRecords_eq_none bs (byteAt bs 19) 144 h htr]

/-- Body decode of a complete Entity State PDU succeeds, and the decoded
version and type fields come from bytes 0 and 2 of the buffer. -/
theorem decodeEspduBody_ok (bs : Bytes) (h : 144 ≤ bs.length)
    (hlen : 144 + 16 * byteAt bs 19 ≤ bs.length) :
    ∃ e, decodeEspduBody bs = .ok e ∧ e.protocolVersion = byteAt bs 0 ∧
      e.pduType = byteAt bs 2 := by
  obtain ⟨l, hl⟩ := readArtRecords_isSome bs (byteAt bs 19) 144 hlen
  refine ⟨⟨byteAt bs 0, byteAt bs 1, byteAt bs 2,
      ⟨u16At bs 12, u16At bs 14, u16At bs 16⟩,
      byteAt bs 18, byteAt bs 19, byteAt bs 20, byteAt bs 21, u16At bs 22,
      (bs.drop 48).take 24, (bs.drop 72).take 12, u32At bs 84,
      (bs.drop 128).take 12, l.map decodeArtParam⟩, ?_, rfl, rfl⟩
  unfold decodeEspduBody
  rw [if_neg (by omega), hl]

/-- C3: for every input buffer shorter than 144 bytes the codec fails
with TooShort, and both drivers ignore the datagram with no further
processing, no relay, and no exception escaping the handler — so the
process never panics on such input. -/
theorem C3_too_short (bs : Bytes) (h : bs.length < 144) :
    decode bs = .error .TooShort ∧
    wsProxyParseDISMessage bs = cleanIgnore ∧
    disListenerParseDISMessage bs = cleanIgnore := by
  refine ⟨?_, ?_, ?_⟩
  · unfold decode
    rw [if_pos h]
  · unfold wsProxyParseDISMessage
    rw [if_neg (by omega)]
  · unfold disListenerParseDISMessage
    rw [if_neg (by omega)]

/-- Witness for C3 at a concrete 3-byte datagram. -/
theorem C3_too_short_witness :
    decode [1, 2, 3] = .error .TooShort ∧
    wsProxyParseDISMessage [1, 2, 3] = cleanIgnore ∧
    disListenerParseDISMessage [1, 2, 3] = cleanIgnore :=
  C3_too_short [1, 2, 3] (by decide)

/-- C7: a datagram of at least 144 bytes whose PDU type byte is not 1
(Entity State) is ignored silently by both drivers — no error is logged,
no conversion is attempted, nothing is relayed and nothing is thrown: a
normal filter outcome. -/
theorem C7_non_espdu_ignored (bs : Bytes) (h : 144 ≤ bs.length)
    (ht : byteAt bs 2 ≠ 1) :
    wsProxyParseDISMessage bs = cleanIgnore ∧
    disListenerParseDISMessage bs = cleanIgnore := by
  have hc : createPdu bs = .ok (.other (byteAt bs 2)) := by
    unfold createPdu
    rw [if_neg ht]
  constructor
  · unfold wsProxyParseDISMessage
    rw [if_pos h, hc]
    simp only [FactoryPdu.pduType]
    rw [if_neg ht]
  · unfold disListenerParseDISMessage
    rw [if_pos h, hc]
    simp only [FactoryPdu.pduType]
    rw [if_neg ht]

/-- Witness for C7 at a concrete 144-byte non-Entity-State datagram. -/
theorem C7_non_espdu_ignored_witness :
    wsProxyParseDISMessage nonEspduBuf = cleanIgnore ∧
    disListenerParseDISMessage nonEspduBuf = cleanIgnore :=
  C7_non_espdu_ignored nonEspduBuf (by decide) (by decide)

/-- C8: publishing with zero connected subscribers is a no-op with no
error, and publishing with subscribers performs exactly one send per
member of the current client set — a client receives the message if and
only if it is still in the set, so a client removed by unsubscription
receives nothing. -/
theorem C8_broadcast_delivery :
    (∀ msg : Bytes, broadcastToWSClients [] msg = []) ∧
    (∀ (clients : List Nat) (msg : Bytes),
      broadcastToWSClients clients msg = clients.map (fun c => (c, msg))) ∧
    (∀ (clients : List Nat) (msg : Bytes) (c : Nat),
      (c, msg) ∈ broadcastToWSClients clients msg ↔ c ∈ clients) ∧
    (∀ (clients : List Nat) (msg : Bytes) (c : Nat),
      (c, msg) ∈ broadcastToWSClients (unsubscribeClient clients c) msg ↔
        c ∈ unsubscribeClient clients c) := by
  have hmap : ∀ (clients : List Nat) (msg : Bytes),
      broadcastToWSClients clients msg = clients.map (fun c => (c, msg)) := by
    intro clients msg
    cases clients with
    | nil => rfl
    | cons a l =>
      unfold broadcastToWSClients
      rw [if_pos (by simp)]
  have hmem : ∀ (clients : List Nat) (msg : Bytes) (c : Nat),
      (c, msg) ∈ broadcastToWSClients clients msg ↔ c ∈ clients := by
    intro clients msg c
    rw [hmap]
    simp [List.mem_map]
  exact ⟨fun msg => hmap [] msg, hmap, hmem,
    fun clients msg c => hmem (unsubscribeClient clients c) msg c⟩

/-- C1 amended: for every datagram of at least 144 bytes carrying a
version-6 Entity State header whose declared articulation records run
past the end of the buffer, decode surfaces TruncatedPdu and the whole
PDU is discarded — nothing handled, nothing relayed; however the drivers
install no handler around the decode, so the error escapes the datagram
handler uncaught (fatal to a Node.js process) instead of being confined
to the datagram. -/
theorem C1_truncated_pdu (bs : Bytes) (h : 144 ≤ bs.length)
    (hv : byteAt bs 0 = 6) (ht : byteAt bs 2 = 1)
    (htr : bs.length < 144 + 16 * byteAt bs 19) :
    decode bs = .error .TruncatedPdu ∧
    wsProxyOnMessage bs = ⟨none, none, [], some (.decodeFailure .TruncatedPdu)⟩ ∧
    disListenerOnMessage bs = ⟨none, none, [], some (.decodeFailure .TruncatedPdu)⟩ := by
  have hbody := decodeEspduBody_truncated bs h htr
  have hc : createPdu bs = .error (.decodeFailure .TruncatedPdu) := by
    unfold createPdu
    rw [if_pos ht, hbody]
  refine ⟨?_, ?_, ?_⟩
  · unfold decode
    rw [if_neg (by omega), if_neg (by omega), if_neg (by omega)]
    exact hbody
  · unfold wsProxyOnMessage wsProxyParseDISMessage
    rw [if_pos h, hc]
  · unfold disListenerOnMessage disListenerParseDISMessage
    rw [if_pos h, hc]

/-- C1 counterexample: a concrete 144-byte version-6 Entity State
datagram declaring one articulation record it does not carry is decoded
to TruncatedPdu, and the error escapes both datagram handlers uncaught —
an uncaught exception in a Node.js event handler terminates the process
— so the part of the claim stating that the decode error never
terminates the listening loop or crashes the process is false here. -/
theorem C1_truncated_counterexample :
    decode truncatedEspduBuf = .error .TruncatedPdu ∧
    (wsProxyOnMessage truncatedEspduBuf).thrown ≠ none ∧
    (disListenerOnMessage truncatedEspduBuf).thrown ≠ none := by
  decide

/-- Witness for the amended C1 at the concrete truncated datagram. -/
theorem C1_truncated_pdu_witness :
    decode truncatedEspduBuf = .error .TruncatedPdu ∧
    wsProxyOnMessage truncatedEspduBuf = ⟨none, none, [], some (.decodeFailure .TruncatedPdu)⟩ ∧
    disListenerOnMessage truncatedEspduBuf = ⟨none, none, [], some (.decodeFailure .TruncatedPdu)⟩ :=
  C1_truncated_pdu truncatedEspduBuf (by decide) (by decide) (by decide) (by decide)

/-- C2: in the WebSocket proxy the identifiers orientationConverter and
heading do not resolve in module scope, the per-PDU handler raises a
ReferenceError on every Entity State PDU before any broadcast, and thus
every complete version-6 Entity State datagram produces an escaped
exception with an empty broadcast list: nothing is ever relayed to
WebSocket subscribers and the handler never completes normally. -/
theorem C2_unbound_identifiers :
    wsProxyResolves "orientationConverter" = false ∧
    wsProxyResolves "heading" = false ∧
    (∀ e : Espdu, wsProxyHandleESPDU e = .error (.referenceError "orientationConverter")) ∧
    (∀ bs : Bytes, 144 ≤ bs.length → byteAt bs 0 = 6 → byteAt bs 2 = 1 →
      144 + 16 * byteAt bs 19 ≤ bs.length →
      wsProxyParseDISMessage bs =
        ⟨none, none, [], some (.referenceError "orientationConverter")⟩) := by
  have hoc : wsProxyResolves "orientationConverter" = false := by decide
  have hhd : wsProxyResolves "heading" = false := by decide
  have hhandle : ∀ e : Espdu,
      wsProxyHandleESPDU e = .error (.referenceError "orientationConverter") := by
    intro e
    unfold wsProxyHandleESPDU
    rw [hoc]
    rfl
  refine ⟨hoc, hhd, hhandle, ?_⟩
  intro bs h hv ht hlen
  obtain ⟨e, he, hver, hty⟩ := decodeEspduBody_ok bs h hlen
  have hc : createPdu bs = .ok (.entityState e) := by
    unfold createPdu
    rw [if_pos ht, he]
  unfold wsProxyParseDISMessage
  rw [if_pos h, hc]
  simp only [FactoryPdu.pduType]
  rw [hty, if_pos ht, hver, hv, if_neg (show ¬(6:Nat) ≠ 6 by omega), hhandle e]

/-- Witness for C2 at the concrete complete version-6 datagram. -/
theorem C2_unbound_identifiers_witness :
    wsProxyParseDISMessage validEspduBuf =
      ⟨none, none, [], some (.referenceError "orientationConverter")⟩ :=
  C2_unbound_identifiers.2.2.2 validEspduBuf (by decide) (by decide) (by decide) (by decide)

/-- C4 counterexample: a 10-byte buffer whose version byte is 5 fails
with TooShort, not with UnsupportedVersion 5, because the minimum-length
precondition takes precedence — so the claim quantified over every
buffer with version different from 6 is false for short buffers. -/
theorem C4_version_counterexample :
    byteAt shortV5Buf 0 = 5 ∧
    decode shortV5Buf = .error .TooShort ∧
    decode shortV5Buf ≠ .error (.UnsupportedVersion 5) := by
  decide

/-- C4 amended: for every buffer of at least 144 bytes whose version
byte differs from 6, decode fails with UnsupportedVersion carrying the
actual version value; and when such a complete Entity State datagram
reaches a driver, the driver logs the version and returns normally — no
exception, nothing handled, nothing broadcast — a per-packet condition
that is never fatal to the process. -/
theorem C4_unsupported_version (bs : Bytes) (h : 144 ≤ bs.length)
    (hv : byteAt bs 0 ≠ 6) :
    decode bs = .error (.UnsupportedVersion (byteAt bs 0)) ∧
    (byteAt bs 2 = 1 → 144 + 16 * byteAt bs 19 ≤ bs.length →
      wsProxyParseDISMessage bs = ⟨some (byteAt bs 0), none, [], none⟩ ∧
      disListenerParseDISMessage bs = ⟨some (byteAt bs 0), none, [], none⟩) := by
  constructor
  · unfold decode
    rw [if_neg (by omega), if_pos hv]
  · intro ht hlen
    obtain ⟨e, he, hver, hty⟩ := decodeEspduBody_ok bs h hlen
    have hc : createPdu bs = .ok (.entityState e) := by
      unfold createPdu
      rw [if_pos ht, he]
    constructor
    · unfold wsProxyParseDISMessage
      rw [if_pos h, hc]
      simp only [FactoryPdu.pduType]
      rw [hty, if_pos ht, hver, if_pos hv]
    · unfold disListenerParseDISMessage
      rw [if_pos h, hc]
      simp only [FactoryPdu.pduType]
      rw [hty, if_pos ht, hver, if_pos hv]

/-- Witness for the amended C4 at the concrete version-5 datagram. -/
theorem C4_unsupported_version_witness :
    decode v5EspduBuf = .error (.UnsupportedVersion (byteAt v5EspduBuf 0)) ∧
    (byteAt v5EspduBuf 2 = 1 → 144 + 16 * byteAt v5EspduBuf 19 ≤ v5EspduBuf.length →
      wsProxyParseDISMessage v5EspduBuf = ⟨some (byteAt v5EspduBuf 0), none, [], none⟩ ∧
      disListenerParseDISMessage v5EspduBuf = ⟨some (byteAt v5EspduBuf 0), none, [], none⟩) :=
  C4_unsupported_version v5EspduBuf (by decide) (by decide)

/-- C5 counterexample: a land-domain platform gets no decoded appearance
at all in the simple listener — neither a land layout with a damage
field nor an Unknown value carrying the raw word — and the same holds
for an air-domain platform; the DISListener meanwhile applies the
surface layout to the word regardless of any domain, so the claimed
four-domain dispatch with an Unknown fallback does not exist in the
code. -/
theorem C5_appearance_counterexample :
    simpleListenerAppearance EntityKindPlatform DomainLand 7 = none ∧
    simpleListenerAppearance EntityKindPlatform DomainAir 7 = none ∧
    disListenerAppearance 7 = .Surface (appearanceDamage 7) 7 := by
  decide

/-- C5 amended: appearance decoding in the simple listener dispatches
only on the platform surface and subsurface combinations, extracting the
2-bit damage sub-field; every other kind/domain combination yields no
decoded appearance — which is never an error, the dispatch is total and
never aborts PDU processing; the DISListener variant applies the surface
layout unconditionally. -/
theorem C5_appearance_dispatch (kind domain w : Nat) :
    (kind = EntityKindPlatform ∧ domain = DomainSurface →
      simpleListenerAppearance kind domain w = some (.Surface (appearanceDamage w) w)) ∧
    (kind = EntityKindPlatform ∧ domain = DomainSubsurface →
      simpleListenerAppearance kind domain w = some (.Subsurface (appearanceDamage w) w)) ∧
    (¬(kind = EntityKindPlatform ∧ (domain = DomainSurface ∨ domain = DomainSubsurface)) →
      simpleListenerAppearance kind domain w = none) ∧
    disListenerAppearance w = .Surface (appearanceDamage w) w := by
  unfold simpleListenerAppearance disListenerAppearance
  refine ⟨?_, ?_, ?_, rfl⟩
  · rintro ⟨h1, h2⟩
    rw [if_pos ⟨h1, h2⟩]
  · rintro ⟨h1, h2⟩
    have hn : ¬(kind = EntityKindPlatform ∧ domain = DomainSurface) := by
      rintro ⟨-, h4⟩
      rw [h2] at h4
      exact absurd h4 (by decide)
    rw [if_neg hn, if_pos ⟨h1, h2⟩]
  · intro hother
    have h1 : ¬(kind = EntityKindPlatform ∧ domain = DomainSurface) := by
      rintro ⟨ha, hb⟩
      exact hother ⟨ha, Or.inl hb⟩
    have h2 : ¬(kind = EntityKindPlatform ∧ domain = DomainSubsurface) := by
      rintro ⟨ha, hb⟩
      exact hother ⟨ha, Or.inr hb⟩
    rw [if_neg h1, if_neg h2]

/-- Witness for the amended C5 at concrete kind/domain/word values. -/
theorem C5_appearance_dispatch_witness :
    simpleListenerAppearance 1 3 16 = some (.Surface (appearanceDamage 16) 16) ∧
    simpleListenerAppearance 1 4 16 = some (.Subsurface (appearanceDamage 16) 16) ∧
    simpleListenerAppearance 1 1 16 = none ∧
    disListenerAppearance 16 = .Surface (appearanceDamage 16) 16 :=
  ⟨(C5_appearance_dispatch 1 3 16).1 (by decide),
   (C5_appearance_dispatch 1 4 16).2.1 (by decide),
   (C5_appearance_dispatch 1 1 16).2.2.1 (by decide),
   (C5_appearance_dispatch 1 1 16).2.2.2⟩

/-- C6 counterexample: an articulation parameter whose designator is 1
(not 0) but whose type is 1 still gets a nested EntityID decoded in the
DISListener variant (part_000 line 216 checks only the type), so the
claim that every type/designator combination other than type 1 with
designator 0 produces no nested EntityID is false on that variant. -/
theorem C6_articulation_counterexample :
    ¬(mismatchedAp.parameterType = 1 ∧ mismatchedAp.parameterTypeDesignator = 0) ∧
    (disListenerApStep mismatchedAp).nestedEntityID = some ⟨1, 2, 3⟩ := by
  decide

/-- C6 amended: a 16-byte articulation record with designator 0 and type
1 whose first 6 value bytes carry big-endian u16 values 1, 2, 3 decodes
to a nested EntityID in both variants; in the WebSocket proxy any other
type/designator combination produces no nested EntityID, while the
DISListener produces none exactly when the type differs from 1,
regardless of the designator; every record additionally retains its raw
value bytes through the hexadecimal rendering, and no record ever fails,
so the rest of the batch is unaffected. -/
theorem C6_articulation_decode (c p1 p2 v7 v8 : Nat) (ap : ArticulationParameter) :
    (wsProxyApStep (decodeArtParam
        [0, c, p1, p2, 0, 0, 0, 1, 0, 1, 0, 2, 0, 3, v7, v8])).nestedEntityID
      = some ⟨1, 2, 3⟩ ∧
    (disListenerApStep (decodeArtParam
        [0, c, p1, p2, 0, 0, 0, 1, 0, 1, 0, 2, 0, 3, v7, v8])).nestedEntityID
      = some ⟨1, 2, 3⟩ ∧
    (¬(ap.parameterType = 1 ∧ ap.parameterTypeDesignator = 0) →
      (wsProxyApStep ap).nestedEntityID = none) ∧
    (ap.parameterType ≠ 1 → (disListenerApStep ap).nestedEntityID = none) ∧
    (wsProxyApStep ap).hexValue = toHex ap.parameterValue ∧
    (disListenerApStep ap).hexValue = toHex ap.parameterValue := by
  refine ⟨?_, ?_, ?_, ?_, rfl, rfl⟩
  · simp [wsProxyApStep, decodeArtParam, byteAt, u32At, initEntityIDFromBinary,
      readU16, List.getD]
  · simp [disListenerApStep, decodeArtParam, byteAt, u32At, initEntityIDFromBinary,
      readU16, List.getD]
  · intro hn
    unfold wsProxyApStep
    dsimp only
    rw [if_neg hn]
  · intro hn
    unfold disListenerApStep
    dsimp only
    rw [if_neg hn]

/-- Witness for the amended C6 at concrete byte values and a concrete
record of another type/designator combination. -/
theorem C6_articulation_decode_witness :
    (wsProxyApStep (decodeArtParam
        [0, 0, 0, 0, 0, 0, 0, 1, 0, 1, 0, 2, 0, 3, 9, 9])).nestedEntityID
      = some ⟨1, 2, 3⟩ ∧
    (disListenerApStep (decodeArtParam
        [0, 0, 0, 0, 0, 0, 0, 1, 0, 1, 0, 2, 0, 3, 9, 9])).nestedEntityID
      = some ⟨1, 2, 3⟩ ∧
    (wsProxyApStep ⟨5, 0, 0, 7, [1, 2, 3, 4, 5, 6, 7, 8]⟩).nestedEntityID = none ∧
    (disListenerApStep ⟨5, 0, 0, 7, [1, 2, 3, 4, 5, 6, 7, 8]⟩).nestedEntityID = none := by
  have h := C6_articulation_decode 0 0 0 9 9 ⟨5, 0, 0, 7, [1, 2, 3, 4, 5, 6, 7, 8]⟩
  exact ⟨h.1, h.2.1, h.2.2.1 (by decide), h.2.2.2.1 (by decide)⟩

/-- Value of atan2 with a zero ordinate and a positive abscissa. -/
theorem atan2_zero_of_pos {x : ℝ} (hx : 0 < x) : atan2 0 x = 0 := by
  unfold atan2
  rw [if_pos hx, zero_div, Real.arctan_zero]

/-- Upper bound of the atan2 range. -/
theorem atan2_le_pi (y x : ℝ) : atan2 y x ≤ Real.pi := by
  have hpi := Real.pi_pos
  unfold atan2
  split_ifs with h1 h2 h3 h4 h5
  · linarith [Real.arctan_lt_pi_div_two (y / x)]
  · have hyx : y / x ≤ 0 := div_nonpos_iff.mpr (Or.inl ⟨h3, h2.le⟩)
    have harc : Real.arctan (y / x) ≤ 0 := by
      have hm := Real.arctan_strictMono.monotone hyx
      rwa [Real.arctan_zero] at hm
    linarith
  · linarith [Real.arctan_lt_pi_div_two (y / x)]
  · linarith
  · linarith
  · linarith

/-- Lower bound of the atan2 range. -/
theorem neg_pi_lt_atan2 (y x : ℝ) : -Real.pi < atan2 y x := by
  have hpi := Real.pi_pos
  unfold atan2
  split_ifs with h1 h2 h3 h4 h5
  · linarith [Real.neg_pi_div_two_lt_arctan (y / x)]
  · linarith [Real.neg_pi_div_two_lt_arctan (y / x)]
  · have hyx : 0 < y / x := div_pos_iff.mpr (Or.inr ⟨by linarith, h2⟩)
    have harc : 0 < Real.arctan (y / x) := by
      have hm := Real.arctan_strictMono hyx
      rwa [Real.arctan_zero] at hm
    linarith
  · linarith
  · linarith
  · linarith

/-- Range of atan2 scaled from radians to degrees: the half-open
interval from -180 exclusive to 180 inclusive. -/
theorem atan2_deg_range (y x : ℝ) :
    -180 < atan2 y x * (180 / Real.pi) ∧ atan2 y x * (180 / Real.pi) ≤ 180 := by
  have hpi := Real.pi_pos
  have hne : Real.pi ≠ 0 := Real.pi_ne_zero
  have h1 := atan2_le_pi y x
  have h2 := neg_pi_lt_atan2 y x
  have hc : 0 < 180 / Real.pi := by positivity
  have hcancel : Real.pi * (180 / Real.pi) = 180 := by
    field_simp
  constructor
  · have h3 := mul_lt_mul_of_pos_right h2 hc
    rw [neg_mul, hcancel] at h3
    exact h3
  · have h3 := mul_le_mul_of_nonneg_right h1 hc.le
    rw [hcancel] at h3
    exact h3

/-- Range of arcsin scaled from radians to degrees: the closed interval
from -90 to 90. -/
theorem arcsin_deg_range (t : ℝ) :
    -90 ≤ Real.arcsin t * (180 / Real.pi) ∧ Real.arcsin t * (180 / Real.pi) ≤ 90 := by
  have hpi := Real.pi_pos
  have hne : Real.pi ≠ 0 := Real.pi_ne_zero
  have h1 := Real.arcsin_le_pi_div_two t
  have h2 := Real.neg_pi_div_two_le_arcsin t
  have hc : 0 < 180 / Real.pi := by positivity
  have hcancel : Real.pi / 2 * (180 / Real.pi) = 90 := by
    field_simp
    ring
  constructor
  · have h3 := mul_le_mul_of_nonneg_right h2 hc.le
    rw [neg_mul, hcancel] at h3
    exact h3
  · have h3 := mul_le_mul_of_nonneg_right h1 hc.le
    rw [hcancel] at h3
    exact h3

/-- Branch normalization used for the heading: a degree value in the
half-open interval from -180 exclusive to 180 inclusive lands in
[0, 360) after adding 360 to negative values. -/
theorem headingNormRange (d : ℝ) (h1 : -180 < d) (h2 : d ≤ 180) :
    0 ≤ (if d < 0 then d + 360 else d) ∧ (if d < 0 then d + 360 else d) < 360 := by
  split_ifs with h
  · constructor <;> linarith
  · constructor <;> linarith

/-- Axis distance of the reference equatorial point. -/
theorem ecefP_ref : ecefP 6378137 0 = 6378137 := by
  unfold ecefP
  rw [show (6378137:ℝ)^2 + 0^2 = 6378137^2 by ring]
  exact Real.sqrt_sq (by norm_num)

/-- Reduced latitude of the reference equatorial point. -/
theorem ecefBeta_ref : ecefBeta 6378137 0 = 0 := by
  unfold ecefBeta
  rw [mul_zero]
  exact atan2_zero_of_pos (by norm_num [wgs84b])

/-- Geodetic latitude of the reference equatorial point is exactly 0. -/
theorem ecefLatRad_ref : ecefLatRad 6378137 0 = 0 := by
  unfold ecefLatRad
  rw [ecefBeta_ref, Real.sin_zero, Real.cos_zero]
  rw [show (0:ℝ) + wgsEp2 * wgs84b * 0^3 = 0 by ring]
  refine atan2_zero_of_pos ?_
  rw [show (6378137:ℝ) - wgsE2 * wgs84a * 1^3 = 6378137 - wgsE2 * wgs84a by ring]
  norm_num [wgsE2, wgs84a, wgs84b]

/-- Altitude of the reference equatorial point is exactly 0. -/
theorem ecefAlt_ref : ecefAlt 6378137 0 = 0 := by
  unfold ecefAlt
  rw [Real.cos_zero, Real.sin_zero]
  rw [show wgsE2 * (0:ℝ)^2 = 0 by ring]
  rw [show (1:ℝ) - 0 = 1 by ring, Real.sqrt_one]
  norm_num [wgs84a]

/-- C9: the spec-modelled ECEF-to-geodetic conversion maps the reference
point (6378137, 0, 0) to latitude 0, longitude 0 and altitude 0 (hence
within 1 m), maps the polar point (0, 0, 6356752.314) to latitude 90,
and on the whole polar axis x = y = 0 takes the explicit branch that
defines latitude as plus or minus 90 degrees, dividing by nothing. -/
theorem C9_ecef_to_geodetic :
    (ecefToGeodetic 6378137 0 0).1 = 0 ∧
    (ecefToGeodetic 6378137 0 0).2.1 = 0 ∧
    |(ecefToGeodetic 6378137 0 0).2.2| ≤ 1 ∧
    (ecefToGeodetic 0 0 6356752.314).1 = 90 ∧
    (∀ z : ℝ, (ecefToGeodetic 0 0 z).1 = if 0 ≤ z then 90 else -90) := by
  have hp0 : ecefP 0 0 = 0 := by
    unfold ecefP
    rw [show (0:ℝ)^2 + 0^2 = 0 by ring, Real.sqrt_zero]
  have haxis : ∀ z : ℝ, ecefToGeodetic 0 0 z =
      ((if 0 ≤ z then 90 else -90), 0, |z| - wgs84b) := by
    intro z
    unfold ecefToGeodetic
    rw [if_pos hp0]
  have href : ecefToGeodetic 6378137 0 0 = (0, 0, 0) := by
    unfold ecefToGeodetic
    rw [ecefP_ref]
    rw [if_neg (by norm_num : ¬(6378137:ℝ) = 0)]
    rw [ecefLatRad_ref, ecefAlt_ref, zero_mul]
    rw [atan2_zero_of_pos (by norm_num : (0:ℝ) < 6378137), zero_mul]
  refine ⟨?_, ?_, ?_, ?_, ?_⟩
  · rw [href]
  · rw [href]
  · rw [href]
    norm_num
  · rw [haxis 6356752.314]
    norm_num
  · intro z
    rw [haxis z]

/-- C10: for every input of body Euler angles and geodetic latitude and
longitude, the spec-modelled orientation conversion produces a heading
in [0, 360), a pitch in [-90, 90] and a roll in (-180, 180], all in
degrees. -/
theorem C10_orientation_ranges (psi theta phi lat lon : ℝ) :
    0 ≤ (calculateHeadingPitchRollFromPsiThetaPhiRadians psi theta phi lat lon).1 ∧
    (calculateHeadingPitchRollFromPsiThetaPhiRadians psi theta phi lat lon).1 < 360 ∧
    -90 ≤ (calculateHeadingPitchRollFromPsiThetaPhiRadians psi theta phi lat lon).2.1 ∧
    (calculateHeadingPitchRollFromPsiThetaPhiRadians psi theta phi lat lon).2.1 ≤ 90 ∧
    -180 < (calculateHeadingPitchRollFromPsiThetaPhiRadians psi theta phi lat lon).2.2 ∧
    (calculateHeadingPitchRollFromPsiThetaPhiRadians psi theta phi lat lon).2.2 ≤ 180 := by
  unfold calculateHeadingPitchRollFromPsiThetaPhiRadians
  dsimp only
  refine ⟨?_, ?_, ?_, ?_, ?_, ?_⟩
  · exact (headingNormRange _ (atan2_deg_range _ _).1 (atan2_deg_range _ _).2).1
  · exact (headingNormRange _ (atan2_deg_range _ _).1 (atan2_deg_range _ _).2).2
  · exact (arcsin_deg_range _).1
  · exact (arcsin_deg_range _).2
  · exact (atan2_deg_range _ _).1
  · exact (atan2_deg_range _ _).2

end DisListenerJs
